import Mathlib

/-!
Shallow embedding of the session-lifecycle and attendance-reconciliation core
of the SIH_33 attendance system (src/services/data_service.py,
src/services/session_service.py, src/api/utils.py, src/api/main.py).

Modelling conventions:
* CSV tables are Lean lists of rows; pandas row filters become `List.filter`.
* `datetime` values are integers (minutes); `get_current_time` becomes an
  explicit `now : Int` argument threaded through each operation.
* Python `set(...)` iteration is modelled by `List.dedup` (order of set
  iteration is unspecified in the source; no claim depends on it).
* The stats CSV is a pure function of the students and attendance tables
  (`update_stats` rewrites it from scratch every time), so operations that
  merely re-trigger `update_stats` do not carry the stats table in the state.
* Python float percentages are modelled as rationals; `round(x, 2)` is
  modelled as rounding to two decimal places (`round2`).
-/

namespace SIH

/-- A row of `students_{branch}.csv` (api/utils.py `ensure_branch_structure`);
the face/QR path columns are irrelevant to the core and omitted. -/
structure Student where
  roll_no : String
  name : String
deriving DecidableEq, Repr

/-- A row of `attendance_{branch}.csv`. -/
structure AttendanceEvent where
  session_id : String
  roll_no : String
  name : String
  status : String
  marked_at : Int
  method : String
  marked_by : String
deriving DecidableEq, Repr

/-- A row of `sessions_{branch}.csv`. -/
structure SessionRow where
  session_id : String
  teacher_id : String
  branch_code : String
  start_time : Int
  deadline_time : Int
  status : String
deriving DecidableEq, Repr

/-- A row of `stats_{branch}.csv`. -/
structure StatRecord where
  roll_no : String
  name : String
  present_days : Nat
  absent_days : Nat
  total_days : Nat
  attendance_pct : ℚ
  last_present : Option Int
  last_absent : Option Int
deriving DecidableEq, Repr

/-- Outcome of reading the attendance CSV: the file may be missing, the read
may raise, or it yields the table.  Used to model the `try`/`except` and
`.exists()` branches of `DataService.is_already_marked`. -/
inductive ReadOutcome (α : Type) where
  | missing
  | failed
  | ok (val : α)
deriving DecidableEq, Repr

/-- Number of attendance events recorded for a (session_id, roll_no) pair. -/
def count_pair (attendance : List AttendanceEvent) (session_id roll_no : String) : Nat :=
  attendance.countP (fun e => e.session_id == session_id && e.roll_no == roll_no)

/-- Model of `DataService.is_already_marked` (services/data_service.py lines 61-76):
returns False when the attendance file does not exist, False when reading it
raises (`except Exception: return False`), and otherwise whether a row for the
exact (session_id, roll_no) pair exists. -/
def is_already_marked (read : ReadOutcome (List AttendanceEvent))
    (session_id roll_no : String) : Bool :=
  match read with
  | .missing => false
  | .failed => false
  | .ok att =>
      !(att.filter (fun e => e.session_id == session_id && e.roll_no == roll_no)).isEmpty

/-- Model of `DataService.get_attendance_record` (lines 78-93): first row matching the
pair, if any (`record.iloc[0]`). -/
def get_attendance_record (attendance : List AttendanceEvent)
    (session_id roll_no : String) : Option AttendanceEvent :=
  attendance.find? (fun e => e.session_id == session_id && e.roll_no == roll_no)

/-- Model of `DataService.mark_attendance` (lines 14-59): look the student up in the
roster (`students_df[students_df['roll_no'] == roll_no]`), return False if
absent, otherwise append a Present event and return True.  The source also
re-triggers `update_stats`, which is derived state here. -/
def mark_attendance (students : List Student) (attendance : List AttendanceEvent)
    (session_id roll_no method marked_by : String) (now : Int) :
    Bool × List AttendanceEvent :=
  match students.find? (fun s => s.roll_no == roll_no) with
  | none => (false, attendance)
  | some st =>
      (true, attendance ++
        [{ session_id := session_id, roll_no := roll_no, name := st.name,
           status := "Present", marked_at := now, method := method,
           marked_by := marked_by }])

/-- Model of `DataService.manual_override_attendance` (lines 95-152): False if the
student is not in the roster; update every row matching the pair in place
(status, marked_at := now, method := "manual", marked_by := teacher) when one
exists, else append a fresh row with the given status. -/
def manual_override_attendance (students : List Student)
    (attendance : List AttendanceEvent)
    (session_id roll_no new_status teacher_id : String) (now : Int) :
    Bool × List AttendanceEvent :=
  match students.find? (fun s => s.roll_no == roll_no) with
  | none => (false, attendance)
  | some st =>
      if attendance.any (fun e => e.session_id == session_id && e.roll_no == roll_no) then
        (true, attendance.map (fun e =>
          if e.session_id == session_id && e.roll_no == roll_no then
            { e with status := new_status, marked_at := now, method := "manual",
                     marked_by := teacher_id }
          else e))
      else
        (true, attendance ++
          [{ session_id := session_id, roll_no := roll_no, name := st.name,
             status := new_status, marked_at := now, method := "manual",
             marked_by := teacher_id }])

/-- Model of `DataService.mark_absentees_auto` (lines 306-346): compute
`set(roster) - set(roll_no marked in this session)` and append an
Absent/auto/system event for each member.  The Python `set` is modelled with
`List.dedup`; `students_df[...].iloc[0]` is the first roster row with that
roll_no. -/
def mark_absentees_auto (students : List Student) (attendance : List AttendanceEvent)
    (session_id : String) (now : Int) : List AttendanceEvent :=
  let session_attendance := attendance.filter (fun e => e.session_id == session_id)
  let marked := session_attendance.map (fun e => e.roll_no)
  let absent := ((students.map (fun s => s.roll_no)).dedup).filter
    (fun r => !(marked.contains r))
  attendance ++ absent.filterMap (fun r =>
    (students.find? (fun s => s.roll_no == r)).map (fun st =>
      { session_id := session_id, roll_no := r, name := st.name, status := "Absent",
        marked_at := now, method := "auto", marked_by := "system" }))

/-- The `absent_students` set of `mark_absentees_auto`, spelled out: the
duplicate-free roster roll numbers with no event in the given session. -/
def backfill_absent_rolls (students : List Student)
    (attendance : List AttendanceEvent) (session_id : String) : List String :=
  ((students.map (fun s => s.roll_no)).dedup).filter
    (fun r => !(((attendance.filter (fun e => e.session_id == session_id)).map
      (fun e => e.roll_no)).contains r))

/-- Python `round(x, 2)` on the percentage, modelled over ℚ. -/
def round2 (x : ℚ) : ℚ := ((Int.floor (x * 100 + 1 / 2) : ℤ) : ℚ) / 100

/-- Model of `attendance_df['session_id'].nunique()`. -/
def distinct_sessions (attendance : List AttendanceEvent) : Nat :=
  ((attendance.map (fun e => e.session_id)).dedup).length

/-- One output row of `DataService.update_stats` (lines 247-298) for student
`s`, given the full attendance table and `total_sessions`. -/
def stat_row (attendance : List AttendanceEvent) (total_sessions : Nat)
    (s : Student) : StatRecord :=
  let recs := attendance.filter (fun e => e.roll_no == s.roll_no)
  let present0 := (recs.filter (fun e => e.status == "Present")).length
  let absent0 := (recs.filter (fun e => e.status == "Absent")).length
  let present := if recs.isEmpty then 0 else present0
  let absent :=
    if recs.isEmpty then total_sessions
    else absent0 + (total_sessions - ((recs.map (fun e => e.session_id)).dedup).length)
  let pct : ℚ :=
    if total_sessions > 0 then (present : ℚ) / (total_sessions : ℚ) * 100 else 0
  { roll_no := s.roll_no, name := s.name, present_days := present,
    absent_days := absent, total_days := total_sessions,
    attendance_pct := round2 pct,
    last_present := ((recs.filter (fun e => e.status == "Present")).map
      (fun e => e.marked_at)).max?,
    last_absent := ((recs.filter (fun e => e.status == "Absent")).map
      (fun e => e.marked_at)).max? }

/-- Model of `DataService.update_stats` (lines 220-304): with an empty attendance table
it writes an all-zero row per roster student, else one `stat_row` per roster
student with `total_sessions = nunique(session_id)`. -/
def update_stats (students : List Student) (attendance : List AttendanceEvent) :
    List StatRecord :=
  if attendance.isEmpty then
    students.map (fun s =>
      { roll_no := s.roll_no, name := s.name, present_days := 0, absent_days := 0,
        total_days := 0, attendance_pct := 0, last_present := none,
        last_absent := none })
  else
    students.map (stat_row attendance (distinct_sessions attendance))

/-- Per-branch persistent state: the three CSV tables the core touches
(the stats table being derived, see `update_stats`). -/
structure BranchState where
  students : List Student
  attendance : List AttendanceEvent
  sessions : List SessionRow
deriving DecidableEq, Repr

/-- Model of `api/utils.is_session_active` (lines 71-91): first row matching the
session_id (`session.iloc[0]`); False when absent, when status ≠ "open", or
when `now ≥ deadline_time`. -/
def is_session_active (sessions : List SessionRow) (session_id : String)
    (now : Int) : Bool :=
  match sessions.find? (fun r => r.session_id == session_id) with
  | none => false
  | some s => s.status == "open" && decide (now < s.deadline_time)

/-- Model of `SessionService.close_session` (session_service.py lines 63-86): False when
no row matches; otherwise set every matching row's status to "closed"
(`sessions_df.loc[mask, 'status'] = 'closed'`), run `mark_absentees_auto`, and
return True. -/
def close_session (st : BranchState) (session_id : String) (now : Int) :
    Bool × BranchState :=
  if st.sessions.any (fun r => r.session_id == session_id) then
    (true,
      { st with
        sessions := st.sessions.map (fun r =>
          if r.session_id == session_id then { r with status := "closed" } else r),
        attendance := mark_absentees_auto st.students st.attendance session_id now })
  else (false, st)

/-- The scan inside `SessionService.get_active_session` (lines 106-122): walk
the snapshot of open sessions in table order; return the first with
`now < deadline_time`; auto-close (side effect on the state) each expired one
encountered before that. -/
def scan_open_sessions (now : Int) :
    List SessionRow → BranchState → Option SessionRow × BranchState
  | [], st => (none, st)
  | s :: rest, st =>
      if now < s.deadline_time then (some s, st)
      else scan_open_sessions now rest (close_session st s.session_id now).2

/-- Model of `SessionService.get_active_session` (lines 88-126): filter the open
sessions and scan them; None when none is open and unexpired. -/
def get_active_session (st : BranchState) (now : Int) :
    Option SessionRow × BranchState :=
  scan_open_sessions now (st.sessions.filter (fun r => r.status == "open")) st

/-- Model of `api/utils.generate_session_id` (lines 65-69): `"S_" + timestamp + "_" +
branch_code`, the timestamp rendered from the current time. -/
def generate_session_id (branch_code : String) (now : Int) : String :=
  "S_" ++ toString now ++ "_" ++ branch_code

/-- Model of `SessionService.start_session` (lines 17-61): append a fresh row with
status "open" and `deadline_time = start_time + deadline_minutes` and return
it.  (Times are measured in minutes, so the `timedelta` addition is `+`.) -/
def start_session (st : BranchState) (teacher_id branch_code : String)
    (deadline_minutes now : Int) : SessionRow × BranchState :=
  let row : SessionRow :=
    { session_id := generate_session_id branch_code now, teacher_id := teacher_id,
      branch_code := branch_code, start_time := now,
      deadline_time := now + deadline_minutes, status := "open" }
  (row, { st with sessions := st.sessions ++ [row] })

/-- Result of the start-session endpoint. -/
inductive StartResult where
  | conflict
  | started (s : SessionRow)
deriving DecidableEq, Repr

/-- Model of `POST /api/teacher/start_session` (api/main.py lines 80-105): call
`get_active_session` (which may auto-close expired sessions as a side effect);
409-style Conflict if it returns a session, else `start_session`. -/
def start_session_endpoint (st : BranchState) (teacher_id branch_code : String)
    (deadline_minutes now : Int) : StartResult × BranchState :=
  match get_active_session st now with
  | (some _, st2) => (.conflict, st2)
  | (none, st2) =>
      let r := start_session st2 teacher_id branch_code deadline_minutes now
      (.started r.1, r.2)

/-- The sequential caller protocol for one branch: the start endpoint (which
performs the documented get-active check), manual close, and get-active. -/
inductive SessionOp where
  | startOp (teacher_id branch_code : String) (deadline_minutes now : Int)
  | closeOp (session_id : String) (now : Int)
  | getActiveOp (now : Int)
deriving DecidableEq, Repr

/-- Apply one operation of the caller protocol to the branch state. -/
def apply_session_op (st : BranchState) : SessionOp → BranchState
  | .startOp t b d n => (start_session_endpoint st t b d n).2
  | .closeOp sid n => (close_session st sid n).2
  | .getActiveOp n => (get_active_session st n).2

/-- Run a sequence of caller-protocol operations. -/
def run_session_ops (st : BranchState) : List SessionOp → BranchState
  | [] => st
  | op :: rest => run_session_ops (apply_session_op st op) rest

/-- Number of rows with status "open" in a session table. -/
def count_open (sessions : List SessionRow) : Nat :=
  sessions.countP (fun r => r.status == "open")

/-- The branch state right after `ensure_branch_structure`: empty attendance
and session tables, whatever roster has been registered. -/
def initial_branch_state (students : List Student) : BranchState :=
  { students := students, attendance := [], sessions := [] }

/-- One row of `branches.csv` together with that branch's files.
`has_sessions_file` models `files['sessions'].exists()`. -/
structure BranchEntry where
  branch_code : String
  has_sessions_file : Bool
  state : BranchState
deriving DecidableEq, Repr

/-- A Python exception escaping a block. -/
inductive PyError where
  | typeError
deriving DecidableEq, Repr

/-- The per-branch loop inside `SessionService.get_session`
(session_service.py lines 128-158).  For each branch whose sessions file
exists, the source reads the table, filters it, and then evaluates
`if not session.empty():` — `DataFrame.empty` is a property, not a method, so
this call raises `TypeError` no matter what the filter returned.  Branches
without a sessions file are skipped. -/
def get_session_scan (session_id : String) :
    List BranchEntry → Except PyError (Option SessionRow)
  | [] => .ok none
  | b :: rest =>
      if b.has_sessions_file then .error .typeError
      else get_session_scan session_id rest

/-- Model of `SessionService.get_session`: the loop above inside
`try: ... except Exception: return None`. -/
def get_session (branches : List BranchEntry) (session_id : String) :
    Option SessionRow :=
  match get_session_scan session_id branches with
  | .ok r => r
  | .error _ => none

/-- What `get_session` was evidently meant to compute (the body of the loop
with `session.empty` read as the property): the first stored row matching the
session_id across all branches. -/
def get_session_intended (branches : List BranchEntry) (session_id : String) :
    Option SessionRow :=
  match branches with
  | [] => none
  | b :: rest =>
      if b.has_sessions_file then
        match b.state.sessions.find? (fun r => r.session_id == session_id) with
        | some r => some r
        | none => get_session_intended rest session_id
      else get_session_intended rest session_id

/-- Branch lookup used by the mark endpoint once `get_session` has yielded a
`branch_code` (an unknown code would make every file read raise; the endpoint
never reaches that point, so the default state is immaterial). -/
def find_branch (branches : List BranchEntry) (code : String) : BranchState :=
  match branches.find? (fun b => b.branch_code == code) with
  | some b => b.state
  | none => { students := [], attendance := [], sessions := [] }

/-- Write a branch's state back. -/
def set_branch (branches : List BranchEntry) (code : String) (st : BranchState) :
    List BranchEntry :=
  branches.map (fun b => if b.branch_code == code then { b with state := st } else b)

/-- The distinguishable responses of `POST /api/attendance/mark`
(api/main.py lines 210-302). -/
inductive MarkOutcome where
  | sessionNotFound
  | sessionNotActive
  | alreadyMarked (record : Option AttendanceEvent)
  | marked (roll_no : String)
  | notRecognized
deriving DecidableEq, Repr

/-- Model of `POST /api/attendance/mark` (api/main.py lines 210-302) for a face/QR
request: look the session up with `get_session` (404 "Session not found" when
None); reject with "Session is not active or has expired" unless
`is_session_active`; answer "Already marked" when `is_already_marked` holds of
the pair (session_id, `roll_no or ""`) — using the caller-supplied roll_no,
defaulted to the empty string, *before* recognition runs; otherwise run the
recognition adapter (modelled as its result `recognized`) and on success
append the event via `DataService.mark_attendance`.  Reads succeed in this
model; read failures are studied separately via `ReadOutcome`. -/
def mark_attendance_endpoint (branches : List BranchEntry) (session_id : String)
    (provided_roll_no : Option String) (recognized : Option String)
    (method : String) (now : Int) : MarkOutcome × List BranchEntry :=
  match get_session branches session_id with
  | none => (.sessionNotFound, branches)
  | some sess =>
      let st := find_branch branches sess.branch_code
      if !(is_session_active st.sessions session_id now) then
        (.sessionNotActive, branches)
      else if is_already_marked (.ok st.attendance) session_id
          (provided_roll_no.getD "") then
        (.alreadyMarked
          (get_attendance_record st.attendance session_id (provided_roll_no.getD "")),
         branches)
      else
        match recognized with
        | some roll =>
            let res := mark_attendance st.students st.attendance session_id roll
              method "student" now
            (.marked roll,
             set_branch branches sess.branch_code { st with attendance := res.2 })
        | none => (.notRecognized, branches)

/-- The duplicate-guard/mark sequence of the endpoint (api/main.py lines
234-259) with the guard's attendance-file read outcome made explicit: skip
marking when the guard reports the pair as already marked, otherwise call
`DataService.mark_attendance`. -/
def guarded_mark (read : ReadOutcome (List AttendanceEvent))
    (students : List Student) (attendance : List AttendanceEvent)
    (session_id roll_no method marked_by : String) (now : Int) :
    Bool × List AttendanceEvent :=
  if is_already_marked read session_id roll_no then (false, attendance)
  else mark_attendance students attendance session_id roll_no method marked_by now

/-! ### Claim fixtures -/

/-- A branch whose sessions file stores session "S1". -/
def branch_C4 : BranchEntry :=
  { branch_code := "CSH", has_sessions_file := true,
    state := { students := [], attendance := [],
               sessions := [{ session_id := "S1", teacher_id := "T001",
                              branch_code := "CSH", start_time := 0,
                              deadline_time := 60, status := "open" }] } }

/-- A store in which student R1 already has a Present event for the open,
unexpired session "S1". -/
def store_C1 : List BranchEntry :=
  [{ branch_code := "CSH", has_sessions_file := true,
     state := { students := [{ roll_no := "R1", name := "Alice" }],
                attendance := [{ session_id := "S1", roll_no := "R1",
                                 name := "Alice", status := "Present",
                                 marked_at := 3, method := "face",
                                 marked_by := "student" }],
                sessions := [{ session_id := "S1", teacher_id := "T001",
                               branch_code := "CSH", start_time := 0,
                               deadline_time := 60, status := "open" }] } }]

/-- The session row of the closed session "S1". -/
def closed_row_C2 : SessionRow :=
  { session_id := "S1", teacher_id := "T001", branch_code := "CSH",
    start_time := 0, deadline_time := 60, status := "closed" }

/-- A store whose only session "S1" is stored with status "closed". -/
def store_C2 : List BranchEntry :=
  [{ branch_code := "CSH", has_sessions_file := true,
     state := { students := [{ roll_no := "R1", name := "Alice" }],
                attendance := [],
                sessions := [closed_row_C2] } }]

/-- A store whose only session "S1" is still stored Open with deadline 5. -/
def store_C9 : List BranchEntry :=
  [{ branch_code := "CSH", has_sessions_file := true,
     state := { students := [{ roll_no := "R1", name := "Alice" }],
                attendance := [],
                sessions := [{ session_id := "S1", teacher_id := "T001",
                               branch_code := "CSH", start_time := 0,
                               deadline_time := 5, status := "open" }] } }]

/-! ### Basic behaviour of `get_session` -/

/-- Every branch either has no sessions file (and is skipped) or triggers the
`TypeError`; the scan therefore never produces a row. -/
theorem get_session_scan_no_row (session_id : String) :
    ∀ branches : List BranchEntry,
      get_session_scan session_id branches = .ok none ∨
      get_session_scan session_id branches = .error .typeError := by
  intro branches
  induction branches with
  | nil => exact Or.inl rfl
  | cons b rest ih =>
      by_cases h : b.has_sessions_file
      · exact Or.inr (by simp [get_session_scan, h])
      · simpa [get_session_scan, h] using ih

/-- Thus `get_session` returns None on every input. -/
theorem get_session_eq_none (branches : List BranchEntry) (session_id : String) :
    get_session branches session_id = none := by
  unfold get_session
  rcases get_session_scan_no_row session_id branches with h | h <;> rw [h]

/-- Consequently every request to the mark endpoint is answered with the
404 "Session not found" branch and the stores are untouched. -/
theorem mark_endpoint_not_found (branches : List BranchEntry)
    (session_id : String) (provided_roll_no recognized : Option String)
    (method : String) (now : Int) :
    mark_attendance_endpoint branches session_id provided_roll_no recognized
      method now = (.sessionNotFound, branches) := by
  simp only [mark_attendance_endpoint, get_session_eq_none]

/-! ### Claims C4, C2, C9, C1 -/

/-- C4: the claim says `get_session` returns the stored record and None only
when no branch stores the id.  In the code `if not session.empty():` calls the
boolean property `DataFrame.empty`, raising `TypeError`, which the enclosing
handler turns into None — so `get_session` returns None for every input, in
particular for a stored session. -/
theorem C4_get_session_always_none :
    (∀ (branches : List BranchEntry) (session_id : String),
        get_session branches session_id = none) ∧
    branch_C4.state.sessions.any (fun r => r.session_id == "S1") = true ∧
    get_session [branch_C4] "S1" = none :=
  ⟨get_session_eq_none, by decide, get_session_eq_none [branch_C4] "S1"⟩

/-- C2: for a session stored with status Closed, `is_session_active` is false
at every time (so the endpoint's own guard would reject the mark with the
"Session is not active or has expired" response and append nothing) — but the
endpoint never reaches that guard: because `get_session` always returns None,
every mark attempt, including one for the closed session, is answered with the
404 "Session not found" branch, and the stores are left untouched. -/
theorem C2_closed_session_mark_not_session_not_open :
    (∀ now : Int, is_session_active [closed_row_C2] "S1" now = false) ∧
    (∀ (provided_roll_no recognized : Option String) (method : String)
        (now : Int),
        mark_attendance_endpoint store_C2 "S1" provided_roll_no recognized
          method now = (.sessionNotFound, store_C2)) :=
  ⟨fun _ => rfl,
   fun roll recog m now => mark_endpoint_not_found store_C2 "S1" roll recog m now⟩

/-- C9 counterexample: a mark attempted at minute 6 against the Open session
"S1" with deadline 5 neither yields the "session not active" response nor
transitions the stored status to "closed" — the response is the 404
"Session not found" branch and the row stays Open. -/
theorem C9_counterexample_no_lazy_close :
    ¬ ((mark_attendance_endpoint store_C9 "S1" none (some "R1") "face" 6).1 =
          MarkOutcome.sessionNotActive ∧
        ∀ r ∈ (find_branch (mark_attendance_endpoint store_C9 "S1" none
            (some "R1") "face" 6).2 "CSH").sessions,
          r.session_id = "S1" → r.status = "closed") := by
  decide

/-- C9 amended: a mark attempted after the deadline while the stored status is
still Open (like every other mark attempt) fails with the 404 "Session not
found" response — `get_session` always returns None — appends no attendance
event and performs no auto-close: the stores, in particular the session's
stored status, are left exactly as they were.  Auto-close on expiry happens
only inside `get_active_session` and `cleanup_expired_sessions`, never in the
mark path. -/
theorem C9_mark_after_deadline_rejected_without_close
    (branches : List BranchEntry) (session_id : String)
    (provided_roll_no recognized : Option String) (method : String)
    (now : Int) :
    mark_attendance_endpoint branches session_id provided_roll_no recognized
      method now = (.sessionNotFound, branches) :=
  mark_endpoint_not_found branches session_id provided_roll_no recognized
    method now

/-- C1: the claim says a second `mark` for an already-marked
(session_id, roll_no) pair returns AlreadyMarked.  In the code it returns the
404 "Session not found" branch instead — `get_session` always returns None —
so the AlreadyMarked flow is unreachable; moreover the duplicate guard tests
the caller-supplied `roll_no or ""` before recognition runs, so with the
roll_no field omitted (as the bundled UI does) the guard would pass even
though the recognized student is already marked. -/
theorem C1_remark_not_answered_already_marked :
    0 < count_pair (find_branch store_C1 "CSH").attendance "S1" "R1" ∧
    mark_attendance_endpoint store_C1 "S1" (some "R1") (some "R1") "qr" 10 =
      (.sessionNotFound, store_C1) ∧
    is_already_marked (.ok (find_branch store_C1 "CSH").attendance) "S1"
      ((none : Option String).getD "") = false :=
  ⟨by decide, mark_endpoint_not_found store_C1 "S1" (some "R1") (some "R1") "qr" 10,
   by decide⟩

/-! ### Claim C5: close_session -/

/-- After `close_session`, every stored row with the given session_id has
status "closed" (when the row was absent this holds vacuously). -/
theorem close_session_status_closed (st : BranchState) (session_id : String)
    (now : Int) :
    ∀ r ∈ (close_session st session_id now).2.sessions,
      r.session_id = session_id → r.status = "closed" := by
  intro r hr hid
  unfold close_session at hr
  by_cases h : st.sessions.any (fun r => r.session_id == session_id)
  · simp only [h, if_true] at hr
    rcases List.mem_map.mp hr with ⟨r0, _, hfr⟩
    by_cases h0 : r0.session_id == session_id
    · rw [if_pos h0] at hfr
      rw [← hfr]
    · rw [if_neg h0] at hfr
      exact absurd (hfr ▸ hid) (by simpa using h0)
  · simp only [h] at hr
    simp only [Bool.false_eq_true, if_false] at hr
    exact absurd (List.any_eq_true.mpr ⟨r, hr, by simpa using hid⟩) h

/-- C5: `close_session` returns false and changes nothing when no row matches
the session_id; when a row exists it returns true, stamps every matching row
"closed" regardless of its previous status, and unconditionally replaces the
attendance table with the absentee backfill of the old one; a second close
still leaves every matching row "closed". -/
theorem C5_close_session_spec (st : BranchState) (session_id : String)
    (now now2 : Int) :
    ((∀ r ∈ st.sessions, r.session_id ≠ session_id) →
        close_session st session_id now = (false, st)) ∧
    ((∃ r ∈ st.sessions, r.session_id = session_id) →
        (close_session st session_id now).1 = true ∧
        (∀ r ∈ (close_session st session_id now).2.sessions,
            r.session_id = session_id → r.status = "closed") ∧
        (close_session st session_id now).2.attendance =
          mark_absentees_auto st.students st.attendance session_id now) ∧
    (∀ r ∈ (close_session (close_session st session_id now).2 session_id
        now2).2.sessions,
        r.session_id = session_id → r.status = "closed") := by
  refine ⟨?_, ?_, close_session_status_closed _ _ _⟩
  · intro hnone
    have h : st.sessions.any (fun r => r.session_id == session_id) = false := by
      rw [List.any_eq_false]
      intro r hr
      simpa using hnone r hr
    unfold close_session
    rw [h]
    simp
  · intro ⟨r, hr, hid⟩
    have h : st.sessions.any (fun r => r.session_id == session_id) = true :=
      List.any_eq_true.mpr ⟨r, hr, by simpa using hid⟩
    refine ⟨?_, close_session_status_closed _ _ _, ?_⟩ <;>
      (unfold close_session; rw [h]; simp)

/-- Witness for C5 at a concrete state: a table holding the open session "S1"
and a one-student roster. -/
theorem C5_close_session_spec_witness :
    (∃ r ∈ (BranchState.mk [{ roll_no := "R1", name := "Alice" }] []
        [{ session_id := "S1", teacher_id := "T001", branch_code := "CSH",
           start_time := 0, deadline_time := 60, status := "open" }]).sessions,
        r.session_id = "S1") ∧
    (close_session (BranchState.mk [{ roll_no := "R1", name := "Alice" }] []
        [{ session_id := "S1", teacher_id := "T001", branch_code := "CSH",
           start_time := 0, deadline_time := 60, status := "open" }]) "S1" 7).1 =
      true :=
  ⟨by decide,
   ((C5_close_session_spec (BranchState.mk [{ roll_no := "R1", name := "Alice" }]
        [] [{ session_id := "S1", teacher_id := "T001", branch_code := "CSH",
              start_time := 0, deadline_time := 60, status := "open" }]) "S1"
        7 7).2.1 (by decide)).1⟩

/-! ### Claim C6: absentee backfill -/

/-- How many events the rows appended by the backfill contribute to a
(session_id, roll) pair: one when `roll` occurs in the (duplicate-free) list
of unmarked roll numbers, zero otherwise. -/
theorem countP_backfill_rows (students : List Student) (session_id : String)
    (now : Int) (roll : String) :
    ∀ l : List String, l.Nodup →
      (∀ x ∈ l, ∃ s ∈ students, s.roll_no = x) →
      (l.filterMap (fun r =>
        (students.find? (fun s => s.roll_no == r)).map (fun st =>
          ({ session_id := session_id, roll_no := r, name := st.name,
             status := "Absent", marked_at := now, method := "auto",
             marked_by := "system" } : AttendanceEvent)))).countP
        (fun e => e.session_id == session_id && e.roll_no == roll) =
      if roll ∈ l then 1 else 0 := by
  intro l
  induction l with
  | nil => simp
  | cons x rest ih =>
      intro hnd hmem
      obtain ⟨st0, hst0, hroll⟩ := hmem x (List.mem_cons_self x rest)
      have hfind : (students.find? (fun s => s.roll_no == x)).isSome :=
        List.find?_isSome.mpr ⟨st0, hst0, by simpa using hroll⟩
      obtain ⟨st1, hst1⟩ := Option.isSome_iff_exists.mp hfind
      rw [List.filterMap_cons, hst1]
      simp only [Option.map_some']
      rw [List.countP_cons]
      have hrest := ih hnd.of_cons (fun y hy => hmem y (List.mem_cons_of_mem x hy))
      by_cases hxr : roll = x
      · subst hxr
        have hnotin : roll ∉ rest := (List.nodup_cons.mp hnd).1
        simp [hrest, hnotin]
      · have : (x == roll) = false := by
          simpa using fun h => hxr h.symm
        simp [hrest, this, List.mem_cons, hxr, Ne.symm hxr]

/-- Unfolding lemma: `mark_absentees_auto` appends one Absent row per member of
`backfill_absent_rolls` to the table. -/
theorem mark_absentees_auto_eq (students : List Student)
    (attendance : List AttendanceEvent) (session_id : String) (now : Int) :
    mark_absentees_auto students attendance session_id now =
      attendance ++
        (backfill_absent_rolls students attendance session_id).filterMap
          (fun r => (students.find? (fun s => s.roll_no == r)).map (fun st =>
            { session_id := session_id, roll_no := r, name := st.name,
              status := "Absent", marked_at := now, method := "auto",
              marked_by := "system" })) := rfl

/-- Membership in the backfill's unmarked-roll list, for a roster student:
exactly when the student has no event for the session yet. -/
theorem mem_absent_iff (students : List Student)
    (attendance : List AttendanceEvent) (session_id : String) (s : Student)
    (hs : s ∈ students) :
    (s.roll_no ∈ backfill_absent_rolls students attendance session_id) ↔
      count_pair attendance session_id s.roll_no = 0 := by
  unfold backfill_absent_rolls
  have hmem : s.roll_no ∈ (students.map (fun s => s.roll_no)).dedup :=
    List.mem_dedup.mpr (List.mem_map.mpr ⟨s, hs, rfl⟩)
  have hmarked : (s.roll_no ∈ ((attendance.filter
      (fun e => e.session_id == session_id)).map (fun e => e.roll_no))) ↔
      0 < count_pair attendance session_id s.roll_no := by
    rw [count_pair, List.countP_pos_iff]
    constructor
    · intro h
      obtain ⟨e, he, hroll⟩ := List.mem_map.mp h
      exact ⟨e, (List.mem_filter.mp he).1,
        by simp [(List.mem_filter.mp he).2, hroll]⟩
    · intro ⟨e, he, hpe⟩
      simp only [Bool.and_eq_true, beq_iff_eq] at hpe
      exact List.mem_map.mpr ⟨e, List.mem_filter.mpr ⟨he, by simp [hpe.1]⟩, hpe.2⟩
  rw [List.mem_filter]
  simp only [hmem, true_and, Bool.not_eq_true', ← Bool.not_eq_true]
  rw [List.contains_iff_exists_mem_beq]
  constructor
  · intro h
    by_contra hne
    exact h (by
      obtain ⟨e, he, hpe⟩ := List.countP_pos_iff.mp (Nat.pos_of_ne_zero hne)
      simp only [Bool.and_eq_true, beq_iff_eq] at hpe
      exact ⟨s.roll_no, List.mem_map.mpr
        ⟨e, List.mem_filter.mpr ⟨he, by simp [hpe.1]⟩, hpe.2⟩, by simp⟩)
  · intro h hcontains
    obtain ⟨x, hx, hbeq⟩ := hcontains
    have : s.roll_no = x := by simpa using hbeq
    exact absurd (hmarked.mp (this ▸ hx)) (by simp [h])

/-- C6: provided each roster student has at most one event for the session
beforehand (the ledger invariant), after `mark_absentees_auto` every roster
student has exactly one event for that session, and the pre-existing table is
an unchanged prefix of the result (backfill only appends). -/
theorem C6_backfill_exactly_one (students : List Student)
    (attendance : List AttendanceEvent) (session_id : String) (now : Int)
    (h : ∀ s ∈ students, count_pair attendance session_id s.roll_no ≤ 1) :
    (∀ s ∈ students,
        count_pair (mark_absentees_auto students attendance session_id now)
          session_id s.roll_no = 1) ∧
    attendance <+: mark_absentees_auto students attendance session_id now := by
  constructor
  · intro s hs
    rw [mark_absentees_auto_eq]
    unfold count_pair
    rw [List.countP_append]
    have habs := countP_backfill_rows students session_id now s.roll_no
      (backfill_absent_rolls students attendance session_id)
      (List.Nodup.filter _ (List.nodup_dedup _))
      (fun x hx => by
        obtain ⟨s0, hs0, hroll⟩ := List.mem_map.mp
          (List.mem_dedup.mp (List.mem_filter.mp hx).1)
        exact ⟨s0, hs0, hroll⟩)
    rw [habs]
    rcases Nat.lt_or_ge 0 (count_pair attendance session_id s.roll_no) with
      hpos | hzero
    · have h1 : count_pair attendance session_id s.roll_no = 1 :=
        Nat.le_antisymm (h s hs) hpos
      have hnotmem :
          s.roll_no ∉ backfill_absent_rolls students attendance session_id := by
        rw [mem_absent_iff students attendance session_id s hs]
        omega
      rw [count_pair] at h1
      simp [hnotmem, h1]
    · have hzero : count_pair attendance session_id s.roll_no = 0 :=
        Nat.le_antisymm hzero (Nat.zero_le _)
      have hmem : s.roll_no ∈ backfill_absent_rolls students attendance session_id :=
        (mem_absent_iff students attendance session_id s hs).mpr hzero
      rw [count_pair] at hzero
      simp [hmem, hzero]
  · exact ⟨_, rfl⟩

/-- Witness for C6: roster [R1 Alice, R2 Bob], R1 already marked Present for
"S1"; backfill gives each of R1, R2 exactly one event and keeps the prefix. -/
theorem C6_backfill_exactly_one_witness :
    (∀ s ∈ [Student.mk "R1" "Alice", Student.mk "R2" "Bob"],
        count_pair [AttendanceEvent.mk "S1" "R1" "Alice" "Present" 3 "face"
          "student"] "S1" s.roll_no ≤ 1) ∧
    (∀ s ∈ [Student.mk "R1" "Alice", Student.mk "R2" "Bob"],
        count_pair (mark_absentees_auto
          [Student.mk "R1" "Alice", Student.mk "R2" "Bob"]
          [AttendanceEvent.mk "S1" "R1" "Alice" "Present" 3 "face" "student"]
          "S1" 10) "S1" s.roll_no = 1) :=
  ⟨by decide,
   (C6_backfill_exactly_one [Student.mk "R1" "Alice", Student.mk "R2" "Bob"]
      [AttendanceEvent.mk "S1" "R1" "Alice" "Present" 3 "face" "student"]
      "S1" 10 (by decide)).1⟩

/-! ### Claim C8: manual override -/

/-- The boolean `manual_override_attendance` returns is exactly "the roster
lookup found the student" — both the update and the insert branch return
True. -/
theorem manual_override_fst (students : List Student)
    (att : List AttendanceEvent)
    (session_id roll_no new_status teacher_id : String) (now : Int) :
    (manual_override_attendance students att session_id roll_no new_status
        teacher_id now).1 =
      (students.find? (fun s => s.roll_no == roll_no)).isSome := by
  unfold manual_override_attendance
  cases students.find? (fun s => s.roll_no == roll_no) with
  | none => rfl
  | some st =>
      by_cases h : att.any
        (fun e => e.session_id == session_id && e.roll_no == roll_no) <;>
        simp [h]

/-- Updating the matching rows in place preserves how many rows match the
pair (the update touches neither key field). -/
theorem count_pair_override_map (att : List AttendanceEvent)
    (session_id roll_no new_status teacher_id : String) (now : Int) :
    count_pair (att.map (fun e =>
      if e.session_id == session_id && e.roll_no == roll_no then
        { e with status := new_status, marked_at := now, method := "manual",
                 marked_by := teacher_id }
      else e)) session_id roll_no = count_pair att session_id roll_no := by
  unfold count_pair
  rw [List.countP_map]
  apply List.countP_congr
  intro e _
  by_cases hm : (e.session_id == session_id && e.roll_no == roll_no) = true
  · simp only [Function.comp, hm, if_true]
  · simp [Function.comp, hm]

/-- After the in-place update, every row matching the pair carries the new
status. -/
theorem override_map_status (att : List AttendanceEvent)
    (session_id roll_no new_status teacher_id : String) (now : Int) :
    ∀ e ∈ att.map (fun e =>
      if e.session_id == session_id && e.roll_no == roll_no then
        { e with status := new_status, marked_at := now, method := "manual",
                 marked_by := teacher_id }
      else e), e.session_id = session_id → e.roll_no = roll_no →
        e.status = new_status := by
  intro e he hsid hroll
  obtain ⟨e0, _, hfe⟩ := List.mem_map.mp he
  by_cases hm : (e0.session_id == session_id && e0.roll_no == roll_no) = true
  · rw [if_pos hm] at hfe
    rw [← hfe]
  · rw [if_neg hm] at hfe
    subst hfe
    exact absurd (by simp [hsid, hroll]) hm

/-- In the update branch (student found, a matching row exists) the new table
is the in-place map. -/
theorem manual_override_snd_of_any (students : List Student)
    (att : List AttendanceEvent)
    (session_id roll_no new_status teacher_id : String) (now : Int)
    (st0 : Student)
    (hfind : students.find? (fun s => s.roll_no == roll_no) = some st0)
    (hA : att.any (fun e => e.session_id == session_id && e.roll_no == roll_no)
      = true) :
    (manual_override_attendance students att session_id roll_no new_status
        teacher_id now).2 =
      att.map (fun e =>
        if e.session_id == session_id && e.roll_no == roll_no then
          { e with status := new_status, marked_at := now, method := "manual",
                   marked_by := teacher_id }
        else e) := by
  simp [manual_override_attendance, hfind, hA]

/-- In the insert branch (student found, no matching row) the new table is the
old one with a fresh row appended. -/
theorem manual_override_snd_of_not_any (students : List Student)
    (att : List AttendanceEvent)
    (session_id roll_no new_status teacher_id : String) (now : Int)
    (st0 : Student)
    (hfind : students.find? (fun s => s.roll_no == roll_no) = some st0)
    (hA : ¬ (att.any (fun e => e.session_id == session_id && e.roll_no == roll_no)
      = true)) :
    (manual_override_attendance students att session_id roll_no new_status
        teacher_id now).2 =
      att ++ [{ session_id := session_id, roll_no := roll_no, name := st0.name,
                status := new_status, marked_at := now, method := "manual",
                marked_by := teacher_id }] := by
  simp [manual_override_attendance, hfind, hA]

/-- C8: `manual_override_attendance` returns false exactly when the roll_no is
not in the roster; and for a roster student with at most one existing event
for the pair, applying it twice with the same new_status leaves exactly one
event for the pair, carrying that status. -/
theorem C8_manual_override_spec (students : List Student)
    (attendance : List AttendanceEvent)
    (session_id roll_no new_status teacher_id : String) (now now2 : Int) :
    ((manual_override_attendance students attendance session_id roll_no
        new_status teacher_id now).1 = false ↔
      ∀ s ∈ students, s.roll_no ≠ roll_no) ∧
    ((∃ s ∈ students, s.roll_no = roll_no) →
      count_pair attendance session_id roll_no ≤ 1 →
      count_pair (manual_override_attendance students
        (manual_override_attendance students attendance session_id roll_no
          new_status teacher_id now).2 session_id roll_no new_status teacher_id
        now2).2 session_id roll_no = 1 ∧
      ∀ e ∈ (manual_override_attendance students
        (manual_override_attendance students attendance session_id roll_no
          new_status teacher_id now).2 session_id roll_no new_status teacher_id
        now2).2, e.session_id = session_id → e.roll_no = roll_no →
        e.status = new_status) := by
  constructor
  · rw [manual_override_fst]
    cases hfind : students.find? (fun s => s.roll_no == roll_no) with
    | none =>
        refine iff_of_true rfl ?_
        intro s hs
        simpa using List.find?_eq_none.mp hfind s hs
    | some st =>
        refine iff_of_false (by simp) ?_
        intro hall
        exact hall st (List.mem_of_find?_eq_some hfind)
          (by simpa using List.find?_some hfind)
  · intro hex hc
    have hfindS : (students.find? (fun s => s.roll_no == roll_no)).isSome := by
      apply List.find?_isSome.mpr
      obtain ⟨s, hs, he⟩ := hex
      exact ⟨s, hs, by simpa using he⟩
    obtain ⟨st0, hst0⟩ := Option.isSome_iff_exists.mp hfindS
    by_cases hA : attendance.any
        (fun e => e.session_id == session_id && e.roll_no == roll_no) = true
    · have h1 := manual_override_snd_of_any students attendance session_id
        roll_no new_status teacher_id now st0 hst0 hA
      have hpos : 0 < count_pair attendance session_id roll_no := by
        rw [count_pair, List.countP_pos_iff]
        simpa using List.any_eq_true.mp hA
      have hone : count_pair attendance session_id roll_no = 1 :=
        Nat.le_antisymm hc hpos
      have hcnt1 : count_pair (manual_override_attendance students attendance
          session_id roll_no new_status teacher_id now).2 session_id roll_no = 1 := by
        rw [h1, count_pair_override_map, hone]
      have hA1 : (manual_override_attendance students attendance session_id
          roll_no new_status teacher_id now).2.any
          (fun e => e.session_id == session_id && e.roll_no == roll_no) = true := by
        rw [List.any_eq_true]
        have := List.countP_pos_iff.mp (hcnt1 ▸ Nat.one_pos)
        simpa [count_pair] using this
      have h2 := manual_override_snd_of_any students
        (manual_override_attendance students attendance session_id roll_no
          new_status teacher_id now).2 session_id roll_no new_status teacher_id
        now2 st0 hst0 hA1
      rw [h2]
      exact ⟨by rw [count_pair_override_map, hcnt1],
        override_map_status _ _ _ _ _ _⟩
    · have h1 := manual_override_snd_of_not_any students attendance session_id
        roll_no new_status teacher_id now st0 hst0 hA
      have hzero : count_pair attendance session_id roll_no = 0 := by
        rw [count_pair, List.countP_eq_zero]
        intro e he
        intro hpe
        exact hA (List.any_eq_true.mpr ⟨e, he, hpe⟩)
      have hcnt1 : count_pair (manual_override_attendance students attendance
          session_id roll_no new_status teacher_id now).2 session_id roll_no = 1 := by
        rw [h1, count_pair, List.countP_append]
        rw [count_pair] at hzero
        simp [hzero]
      have hA1 : (manual_override_attendance students attendance session_id
          roll_no new_status teacher_id now).2.any
          (fun e => e.session_id == session_id && e.roll_no == roll_no) = true := by
        rw [List.any_eq_true]
        have := List.countP_pos_iff.mp (hcnt1 ▸ Nat.one_pos)
        simpa [count_pair] using this
      have h2 := manual_override_snd_of_any students
        (manual_override_attendance students attendance session_id roll_no
          new_status teacher_id now).2 session_id roll_no new_status teacher_id
        now2 st0 hst0 hA1
      rw [h2]
      exact ⟨by rw [count_pair_override_map, hcnt1],
        override_map_status _ _ _ _ _ _⟩

/-- Witness for C8: roster [R1 Alice], empty attendance table, override twice
to Absent. -/
theorem C8_manual_override_spec_witness :
    (∃ s ∈ [Student.mk "R1" "Alice"], s.roll_no = "R1") ∧
    count_pair (manual_override_attendance [Student.mk "R1" "Alice"]
      (manual_override_attendance [Student.mk "R1" "Alice"] [] "S1" "R1"
        "Absent" "T001" 4).2 "S1" "R1" "Absent" "T001" 9).2 "S1" "R1" = 1 :=
  ⟨⟨Student.mk "R1" "Alice", by decide⟩,
   ((C8_manual_override_spec [Student.mk "R1" "Alice"] [] "S1" "R1" "Absent"
      "T001" 4 9).2 ⟨Student.mk "R1" "Alice", by decide⟩ (by decide)).1⟩

/-! ### Claim C10: the duplicate guard fails open on read errors -/

/-- C10: `is_already_marked` answers False both when the attendance file is
missing and when reading it raises; hence in the guard-then-mark sequence a
read failure during the guard lets a mark for an already-marked pair through,
and `DataService.mark_attendance` appends a second event for the pair instead
of aborting with a storage error. -/
theorem C10_duplicate_guard_fails_open (students : List Student)
    (attendance : List AttendanceEvent)
    (session_id roll_no method marked_by : String) (now : Int)
    (hmarked : 0 < count_pair attendance session_id roll_no)
    (hstud : ∃ s ∈ students, s.roll_no = roll_no) :
    (∀ sid roll : String,
        is_already_marked ReadOutcome.missing sid roll = false) ∧
    (∀ sid roll : String,
        is_already_marked ReadOutcome.failed sid roll = false) ∧
    (guarded_mark ReadOutcome.failed students attendance session_id roll_no
        method marked_by now).1 = true ∧
    2 ≤ count_pair (guarded_mark ReadOutcome.failed students attendance
        session_id roll_no method marked_by now).2 session_id roll_no := by
  obtain ⟨s, hs, hroll⟩ := hstud
  have hfindS : (students.find? (fun s => s.roll_no == roll_no)).isSome :=
    List.find?_isSome.mpr ⟨s, hs, by simpa using hroll⟩
  obtain ⟨st0, hst0⟩ := Option.isSome_iff_exists.mp hfindS
  have hguard : guarded_mark ReadOutcome.failed students attendance session_id
      roll_no method marked_by now =
      mark_attendance students attendance session_id roll_no method marked_by
        now := rfl
  have hsnd : mark_attendance students attendance session_id roll_no method
      marked_by now = (true, attendance ++
        [{ session_id := session_id, roll_no := roll_no, name := st0.name,
           status := "Present", marked_at := now, method := method,
           marked_by := marked_by }]) := by
    simp [mark_attendance, hst0]
  refine ⟨fun _ _ => rfl, fun _ _ => rfl, ?_, ?_⟩
  · rw [hguard, hsnd]
  · rw [hguard, hsnd]
    rw [count_pair] at hmarked ⊢
    rw [List.countP_append]
    have hone : List.countP
        (fun e => e.session_id == session_id && e.roll_no == roll_no)
        [({ session_id := session_id, roll_no := roll_no, name := st0.name,
            status := "Present", marked_at := now, method := method,
            marked_by := marked_by } : AttendanceEvent)] = 1 := by
      simp [List.countP_cons]
    omega

/-- Witness for C10: R1 is already marked for "S1" and in the roster; after a
failed guard read the second mark goes through and the pair has two events. -/
theorem C10_duplicate_guard_fails_open_witness :
    0 < count_pair [AttendanceEvent.mk "S1" "R1" "Alice" "Present" 3 "face"
      "student"] "S1" "R1" ∧
    2 ≤ count_pair (guarded_mark ReadOutcome.failed [Student.mk "R1" "Alice"]
      [AttendanceEvent.mk "S1" "R1" "Alice" "Present" 3 "face" "student"]
      "S1" "R1" "qr" "student" 9).2 "S1" "R1" :=
  ⟨by decide,
   (C10_duplicate_guard_fails_open [Student.mk "R1" "Alice"]
      [AttendanceEvent.mk "S1" "R1" "Alice" "Present" 3 "face" "student"]
      "S1" "R1" "qr" "student" 9 (by decide)
      ⟨Student.mk "R1" "Alice", by decide⟩).2.2.2⟩

/-! ### Claim C7: stats recomputation -/

/-- The empty-table branch of `update_stats` writes exactly what `stat_row`
yields on an empty table, so the output is always one `stat_row` per roster
student. -/
theorem update_stats_eq_map (students : List Student)
    (attendance : List AttendanceEvent) :
    update_stats students attendance =
      students.map (stat_row attendance (distinct_sessions attendance)) := by
  unfold update_stats
  by_cases h : attendance.isEmpty
  · rw [if_pos h]
    have hnil : attendance = [] := List.isEmpty_iff.mp h
    subst hnil
    apply List.map_congr_left
    intro s _
    simp only [stat_row, distinct_sessions, List.filter_nil, List.map_nil,
      List.dedup_nil, List.length_nil, List.isEmpty_nil, if_true, gt_iff_lt,
      Nat.lt_irrefl, if_false, List.max?_nil]
    have : round2 0 = 0 := by
      unfold round2
      norm_num
    rw [this]
  · rw [if_neg h]

/-- C7: every output row's `total_days` is the number of distinct session_ids
in the branch's event log; a student with no event rows gets `present_days = 0`
and `absent_days = total_days`; and with zero distinct sessions the stored
percentage is 0 (never a division by zero). -/
theorem C7_update_stats_spec (students : List Student)
    (attendance : List AttendanceEvent) :
    update_stats students attendance =
      students.map (stat_row attendance (distinct_sessions attendance)) ∧
    (∀ s : Student,
      (stat_row attendance (distinct_sessions attendance) s).total_days =
        distinct_sessions attendance ∧
      (attendance.filter (fun e => e.roll_no == s.roll_no) = [] →
        (stat_row attendance (distinct_sessions attendance) s).present_days =
          0 ∧
        (stat_row attendance (distinct_sessions attendance) s).absent_days =
          distinct_sessions attendance) ∧
      (distinct_sessions attendance = 0 →
        (stat_row attendance (distinct_sessions attendance) s).attendance_pct =
          0)) := by
  refine ⟨update_stats_eq_map students attendance, fun s => ⟨rfl, ?_, ?_⟩⟩
  · intro hrecs
    constructor <;> simp [stat_row, hrecs]
  · intro htot
    rw [htot]
    simp only [stat_row, gt_iff_lt, Nat.lt_irrefl, if_false]
    have : round2 0 = 0 := by
      unfold round2
      norm_num
    simpa using this

/-- Witness for C7: Bob has no event in the one-row log, so his row shows zero
present days and one absent day per distinct session; over the empty log the
stored percentage is 0. -/
theorem C7_update_stats_spec_witness :
    ([AttendanceEvent.mk "S1" "R1" "Alice" "Present" 3 "face" "student"].filter
      (fun e => e.roll_no == "R2") = [] ∧
     (stat_row [AttendanceEvent.mk "S1" "R1" "Alice" "Present" 3 "face"
        "student"] (distinct_sessions [AttendanceEvent.mk "S1" "R1" "Alice"
        "Present" 3 "face" "student"]) (Student.mk "R2" "Bob")).present_days =
       0) ∧
    (distinct_sessions ([] : List AttendanceEvent) = 0 ∧
     (stat_row [] (distinct_sessions ([] : List AttendanceEvent))
        (Student.mk "R1" "Alice")).attendance_pct = 0) :=
  ⟨⟨by decide,
    (((C7_update_stats_spec [] [AttendanceEvent.mk "S1" "R1" "Alice" "Present"
        3 "face" "student"]).2 (Student.mk "R2" "Bob")).2.1 (by decide)).1⟩,
   ⟨by decide,
    ((C7_update_stats_spec [] ([] : List AttendanceEvent)).2
      (Student.mk "R1" "Alice")).2.2 (by decide)⟩⟩

/-! ### Claim C3: at most one open session per branch -/

/-- Closing only turns "open" rows into "closed": the open count never
grows. -/
theorem count_open_close_le (st : BranchState) (session_id : String)
    (now : Int) :
    count_open (close_session st session_id now).2.sessions ≤
      count_open st.sessions := by
  unfold close_session
  by_cases h : st.sessions.any (fun r => r.session_id == session_id) = true
  · simp only [h, if_true]
    unfold count_open
    rw [List.countP_map]
    apply List.countP_mono_left
    intro r _ hp
    by_cases hm : (r.session_id == session_id) = true
    · exfalso
      simp [Function.comp, hm] at hp
    · simpa [Function.comp, hm] using hp
  · simp [h]

/-- A row that is still open after `close_session` was already a row of the
old table and does not carry the closed session_id. -/
theorem close_session_open_rows (st : BranchState) (session_id : String)
    (now : Int) :
    ∀ r ∈ (close_session st session_id now).2.sessions,
      r.status = "open" → r ∈ st.sessions ∧ r.session_id ≠ session_id := by
  intro r hr hopen
  unfold close_session at hr
  by_cases h : st.sessions.any (fun r => r.session_id == session_id) = true
  · simp only [h, if_true] at hr
    obtain ⟨r0, hr0, hfr⟩ := List.mem_map.mp hr
    by_cases hm : (r0.session_id == session_id) = true
    · rw [if_pos hm] at hfr
      rw [← hfr] at hopen
      simp at hopen
    · rw [if_neg hm] at hfr
      subst hfr
      exact ⟨hr0, by simpa using hm⟩
  · simp only [h] at hr
    simp only [Bool.false_eq_true, if_false] at hr
    refine ⟨hr, fun hid => ?_⟩
    exact h (List.any_eq_true.mpr ⟨r, hr, by simpa using hid⟩)

/-- The session the scan returns is the first snapshot entry whose deadline
has not passed; the state threading does not influence it. -/
theorem scan_open_sessions_fst (now : Int) :
    ∀ (l : List SessionRow) (st : BranchState),
      (scan_open_sessions now l st).1 =
        l.find? (fun s => decide (now < s.deadline_time)) := by
  intro l
  induction l with
  | nil => intro st; rfl
  | cons s rest ih =>
      intro st
      by_cases h : now < s.deadline_time
      · simp [scan_open_sessions, h, List.find?_cons_of_pos]
      · simp [scan_open_sessions, h, List.find?_cons_of_neg, ih]

/-- The scan never increases the open count. -/
theorem scan_count_le (now : Int) :
    ∀ (l : List SessionRow) (st : BranchState),
      count_open (scan_open_sessions now l st).2.sessions ≤
        count_open st.sessions := by
  intro l
  induction l with
  | nil => intro st; exact le_refl _
  | cons s rest ih =>
      intro st
      by_cases h : now < s.deadline_time
      · simp [scan_open_sessions, h]
      · simp only [scan_open_sessions, if_neg h]
        exact le_trans (ih _) (count_open_close_le st s.session_id now)

/-- When the scan exhausts a snapshot covering every open row's session_id
without returning a session, it has closed them all. -/
theorem scan_exhausted_no_open (now : Int) :
    ∀ (l : List SessionRow) (st : BranchState),
      (∀ r ∈ st.sessions, r.status = "open" →
        r.session_id ∈ l.map (fun s => s.session_id)) →
      (scan_open_sessions now l st).1 = none →
      count_open (scan_open_sessions now l st).2.sessions = 0 := by
  intro l
  induction l with
  | nil =>
      intro st hcov _
      simp only [scan_open_sessions]
      rw [count_open, List.countP_eq_zero]
      intro r hr hp
      have hopen : r.status = "open" := by simpa using hp
      simpa using hcov r hr hopen
  | cons s rest ih =>
      intro st hcov hnone
      by_cases h : now < s.deadline_time
      · exfalso
        simp [scan_open_sessions, h] at hnone
      · simp only [scan_open_sessions, if_neg h] at hnone ⊢
        apply ih _ _ hnone
        intro r hr hopen
        obtain ⟨hmem, hne⟩ :=
          close_session_open_rows st s.session_id now r hr hopen
        have hid := hcov r hmem hopen
        simp only [List.map_cons, List.mem_cons] at hid
        rcases hid with hid | hid
        · exact absurd hid hne
        · exact hid

/-- Scanning via `get_active_session` never increases the open count. -/
theorem get_active_count_le (st : BranchState) (now : Int) :
    count_open (get_active_session st now).2.sessions ≤
      count_open st.sessions :=
  scan_count_le now _ st

/-- When `get_active_session` answers None, it has closed every open session
of the branch. -/
theorem get_active_none_zero (st : BranchState) (now : Int)
    (h : (get_active_session st now).1 = none) :
    count_open (get_active_session st now).2.sessions = 0 := by
  apply scan_exhausted_no_open now _ st _ h
  intro r hr hopen
  exact List.mem_map.mpr
    ⟨r, List.mem_filter.mpr ⟨hr, by simpa using hopen⟩, rfl⟩

/-- The start endpoint preserves "at most one open session". -/
theorem start_endpoint_count (st : BranchState) (teacher_id branch_code : String)
    (deadline_minutes now : Int) (h : count_open st.sessions ≤ 1) :
    count_open (start_session_endpoint st teacher_id branch_code
      deadline_minutes now).2.sessions ≤ 1 := by
  unfold start_session_endpoint
  rcases hga : get_active_session st now with ⟨res, st2⟩
  cases res with
  | some s =>
      have hle := get_active_count_le st now
      rw [hga] at hle
      exact le_trans hle h
  | none =>
      have h0 : count_open st2.sessions = 0 := by
        have := get_active_none_zero st now (by rw [hga])
        rwa [hga] at this
      change count_open (st2.sessions ++
        [{ session_id := generate_session_id branch_code now,
           teacher_id := teacher_id, branch_code := branch_code,
           start_time := now, deadline_time := now + deadline_minutes,
           status := "open" }]) ≤ 1
      unfold count_open
      rw [List.countP_append]
      rw [count_open] at h0
      simp [h0]

/-- Every caller-protocol operation preserves "at most one open session". -/
theorem apply_session_op_preserves (st : BranchState) (op : SessionOp)
    (h : count_open st.sessions ≤ 1) :
    count_open (apply_session_op st op).sessions ≤ 1 := by
  cases op with
  | startOp t b d n => exact start_endpoint_count st t b d n h
  | closeOp sid n => exact le_trans (count_open_close_le st sid n) h
  | getActiveOp n => exact le_trans (get_active_count_le st n) h

/-- The invariant carries over any sequence of protocol operations. -/
theorem run_session_ops_invariant :
    ∀ (ops : List SessionOp) (st : BranchState),
      count_open st.sessions ≤ 1 →
      count_open (run_session_ops st ops).sessions ≤ 1 := by
  intro ops
  induction ops with
  | nil => intro st h; exact h
  | cons op rest ih =>
      intro st h
      exact ih _ (apply_session_op_preserves st op h)

/-- When the branch still has an open, unexpired session, the start endpoint
answers Conflict. -/
theorem start_rejected_when_active (st : BranchState)
    (teacher_id branch_code : String) (deadline_minutes now : Int)
    (h : ∃ r ∈ st.sessions, r.status = "open" ∧ now < r.deadline_time) :
    (start_session_endpoint st teacher_id branch_code deadline_minutes now).1 =
      StartResult.conflict := by
  obtain ⟨r, hr, hopen, hlt⟩ := h
  have hfind : ((st.sessions.filter (fun r => r.status == "open")).find?
      (fun s => decide (now < s.deadline_time))).isSome :=
    List.find?_isSome.mpr ⟨r, List.mem_filter.mpr ⟨hr, by simpa using hopen⟩,
      by simpa using hlt⟩
  have hfst : (get_active_session st now).1 = (st.sessions.filter
      (fun r => r.status == "open")).find?
        (fun s => decide (now < s.deadline_time)) :=
    scan_open_sessions_fst now _ st
  unfold start_session_endpoint
  rcases hga : get_active_session st now with ⟨res, st2⟩
  cases res with
  | some s => rfl
  | none =>
      exfalso
      rw [hga] at hfst
      rw [← hfst] at hfind
      simp at hfind

/-- C3: starting from a fresh branch, any sequence of caller-protocol
operations (start via the endpoint's get-active check, close, get-active)
leaves at most one Open session in the branch's table; and a start attempted
while an Open, unexpired session exists is rejected with Conflict. -/
theorem C3_at_most_one_open_session :
    (∀ (students : List Student) (ops : List SessionOp),
        count_open (run_session_ops (initial_branch_state students)
          ops).sessions ≤ 1) ∧
    (∀ (st : BranchState) (teacher_id branch_code : String)
        (deadline_minutes now : Int),
        (∃ r ∈ st.sessions, r.status = "open" ∧ now < r.deadline_time) →
        (start_session_endpoint st teacher_id branch_code deadline_minutes
          now).1 = StartResult.conflict) :=
  ⟨fun students ops => run_session_ops_invariant ops _ (by
      simp [initial_branch_state, count_open]),
   fun st t b d now h => start_rejected_when_active st t b d now h⟩

/-- Witness for C3: with the open session "S1" (deadline 60) in the table, a
start attempt at time 3 is rejected with Conflict. -/
theorem C3_at_most_one_open_session_witness :
    (∃ r ∈ [SessionRow.mk "S1" "T001" "CSH" 0 60 "open"],
        r.status = "open" ∧ (3 : Int) < r.deadline_time) ∧
    (start_session_endpoint (BranchState.mk []
        [] [SessionRow.mk "S1" "T001" "CSH" 0 60 "open"]) "T001" "CSH" 60
        3).1 = StartResult.conflict :=
  ⟨by decide,
   C3_at_most_one_open_session.2 (BranchState.mk [] []
      [SessionRow.mk "S1" "T001" "CSH" 0 60 "open"]) "T001" "CSH" 60 3
      (by decide)⟩

end SIH
